import Mathlib

/-!
Shallow embedding of `src/qbo_oauth_app.py` (QuickBooks Online OAuth flow with
PostgreSQL token persistence), covering the `upsert_qbo_token` function, the
`/callback` Flask route and the `/peek` route, together with the SQL
INSERT ... ON CONFLICT statement they drive.

Modelling conventions:
* Timestamps (`datetime.now(timezone.utc)`, `.timestamp()`, SQL `now()`)
  are integers (epoch seconds), threaded explicitly as `issued_at` / `now`.
* The token store (`config.qbo_oauth_tokens` table) is a `List QboTokenRecord`.
* Python `dict.get` results are `Option` values; Python truthiness of a
  string / integer (`if not code`, `if expires_in`) is made explicit
  (`None`, `""` and `0` are falsy).
* `requests` calls are inputs of the `callback` function: either a network
  error (`requests.RequestException`) or a status code with a parsed JSON body.
* psycopg2 parameter binding: `cur.execute(sql, params)` fails with an
  `IndexError` when `params` supplies fewer values than the `%s`
  placeholders of `sql`; otherwise the insert-or-update runs atomically.
-/

set_option maxRecDepth 8000

namespace QboApp

/-- One value of the psycopg2 parameter tuple / one SQL column value:
a string, a number (epoch timestamp or seconds), or SQL NULL (Python `None`). -/
inductive SqlValue where
  | null : SqlValue
  | text : String → SqlValue
  | num : Int → SqlValue
deriving DecidableEq, Repr

/-- A Python `Optional[str]` as a SQL parameter value. -/
def optTextVal : Option String → SqlValue
  | none => SqlValue.null
  | some s => SqlValue.text s

/-- A Python `Optional[int]` as a SQL parameter value. -/
def optNumVal : Option Int → SqlValue
  | none => SqlValue.null
  | some n => SqlValue.num n

/-- Read a SQL value back as an optional string. -/
def optTextOf : SqlValue → Option String
  | SqlValue.text s => some s
  | _ => none

/-- Read a SQL value back as an optional number. -/
def optIntOf : SqlValue → Option Int
  | SqlValue.num n => some n
  | _ => none

/-- Read a SQL value back as a string (non-nullable column). -/
def textOf : SqlValue → String
  | SqlValue.text s => s
  | _ => ""

/-- Read a SQL value back as a number (non-nullable column). -/
def intOf : SqlValue → Int
  | SqlValue.num n => n
  | _ => 0

/-- One row of `config.qbo_oauth_tokens`, with the columns named in the
INSERT statement of `upsert_qbo_token`. -/
structure QboTokenRecord where
  realm_id : String
  intuit_user_id : Option String
  intuit_email : Option String
  access_token : Option String
  refresh_token : Option String
  token_type : String
  expires_in : Option Int
  refresh_expires_in : Option Int
  issued_at_utc : Int
  access_token_expires_at : Option Int
  refresh_token_expires_at : Option Int
  qbo_environment : String
  client_id : Option String
  created_at : Int
  updated_at : Int
deriving DecidableEq, Repr

/-- The token-endpoint JSON body (`response.json()` in `callback`), as read by
`token.get(...)`: `none` means the key is absent from the dict. -/
structure TokenDict where
  access_token : Option String
  refresh_token : Option String
  token_type : Option String
  expires_in : Option Int
  x_refresh_token_expires_in : Option Int
deriving DecidableEq, Repr

/-- Process-wide configuration read from the environment at startup:
`CLIENT_ID = os.getenv("INTUIT_CLIENT_ID")` (may be unset) and
`QBO_ENV = (os.getenv("QBO_ENV", "sandbox") or "sandbox").lower()`. -/
structure Config where
  client_id : Option String
  qbo_env : String
deriving DecidableEq, Repr

/-- Python truthiness of an optional string: `None` and `""` are falsy. -/
def pyTruthy : Option String → Bool
  | none => false
  | some s => !(s == "")

/-- The SQL statement executed by `upsert_qbo_token`, verbatim from the source
(lines 91-111 of `qbo_oauth_app.py`). -/
def insertSql : String :=
"INSERT INTO config.qbo_oauth_tokens (
    realm_id, intuit_user_id,intuit_email, access_token, refresh_token,
    token_type, expires_in, refresh_expires_in, issued_at_utc,
    access_token_expires_at, refresh_token_expires_at,
    qbo_environment, client_id, created_at, updated_at
)
VALUES (%s,%s,%s,%s,%s,%s,%s,%s,%s,to_timestamp(%s),to_timestamp(%s),%s,%s,now(),now())
ON CONFLICT (realm_id, qbo_environment)
DO UPDATE SET
    access_token = EXCLUDED.access_token,
    refresh_token = EXCLUDED.refresh_token,
    expires_in = EXCLUDED.expires_in,
    refresh_expires_in = EXCLUDED.refresh_expires_in,
    issued_at_utc = EXCLUDED.issued_at_utc,
    access_token_expires_at = EXCLUDED.access_token_expires_at,
    refresh_token_expires_at = EXCLUDED.refresh_token_expires_at,
    intuit_user_id = EXCLUDED.intuit_user_id,
    intuit_email = EXCLUDED.intuit_email,
    updated_at = now();"

/-- Count the `%s` placeholders of a SQL statement, as psycopg2's client-side
parameter interpolation sees them. -/
def countPlaceholders : List Char → Nat
  | '%' :: 's' :: rest => countPlaceholders rest + 1
  | _ :: rest => countPlaceholders rest
  | [] => 0

/-- Number of `%s` placeholders in `insertSql`. -/
def numPlaceholders : Nat := countPlaceholders insertSql.toList

/-- The expiry derivation of `upsert_qbo_token` (lines 83-88):
`issued_at.timestamp() + rel if rel else None`. Python truthiness means a
missing value AND a present value of `0` both produce `None`. -/
def deriveExpiry (issued_at : Int) (rel : Option Int) : Option Int :=
  match rel with
  | some n => if n = 0 then none else some (issued_at + n)
  | none => none

/-- The parameter tuple of `cur.execute` in `upsert_qbo_token`
(lines 112-117), verbatim order:
`(realm_id, intuit_email, token.get("access_token"), token.get("refresh_token"),
token.get("token_type", "bearer"), expires_in, refresh_expires_in, issued_at,
access_expiry, refresh_expiry, QBO_ENV, CLIENT_ID)`.
Note it has 12 entries and no value for `intuit_user_id`. -/
def upsertParams (cfg : Config) (token : TokenDict) (realm_id : String)
    (intuit_email : Option String) (issued_at : Int) : List SqlValue :=
  [ SqlValue.text realm_id,
    optTextVal intuit_email,
    optTextVal token.access_token,
    optTextVal token.refresh_token,
    SqlValue.text (token.token_type.getD "bearer"),
    optNumVal token.expires_in,
    optNumVal token.x_refresh_token_expires_in,
    SqlValue.num issued_at,
    optNumVal (deriveExpiry issued_at token.expires_in),
    optNumVal (deriveExpiry issued_at token.x_refresh_token_expires_in),
    SqlValue.text cfg.qbo_env,
    optTextVal cfg.client_id ]

/-- Bind a 13-value parameter list to the 13 parameterised columns of
`insertSql`, in column order (`created_at` and `updated_at` come from the SQL
`now()` calls, modelled by `now`). -/
def recordFromParams (ps : List SqlValue) (now : Int) : QboTokenRecord :=
  { realm_id := textOf (ps.getD 0 SqlValue.null)
    intuit_user_id := optTextOf (ps.getD 1 SqlValue.null)
    intuit_email := optTextOf (ps.getD 2 SqlValue.null)
    access_token := optTextOf (ps.getD 3 SqlValue.null)
    refresh_token := optTextOf (ps.getD 4 SqlValue.null)
    token_type := textOf (ps.getD 5 SqlValue.null)
    expires_in := optIntOf (ps.getD 6 SqlValue.null)
    refresh_expires_in := optIntOf (ps.getD 7 SqlValue.null)
    issued_at_utc := intOf (ps.getD 8 SqlValue.null)
    access_token_expires_at := optIntOf (ps.getD 9 SqlValue.null)
    refresh_token_expires_at := optIntOf (ps.getD 10 SqlValue.null)
    qbo_environment := textOf (ps.getD 11 SqlValue.null)
    client_id := optTextOf (ps.getD 12 SqlValue.null)
    created_at := now
    updated_at := now }

/-- The ON CONFLICT key `(realm_id, qbo_environment)`. -/
def sameKey (r : QboTokenRecord) (realm env : String) : Bool :=
  r.realm_id == realm && r.qbo_environment == env

/-- The DO UPDATE SET clause of `insertSql`: overwrite the volatile columns
with the EXCLUDED (incoming) values, bump `updated_at`; `created_at`,
`token_type` and `client_id` are not in the SET list and keep their old values. -/
def doUpdateSet (old incoming : QboTokenRecord) (now : Int) : QboTokenRecord :=
  { old with
    access_token := incoming.access_token
    refresh_token := incoming.refresh_token
    expires_in := incoming.expires_in
    refresh_expires_in := incoming.refresh_expires_in
    issued_at_utc := incoming.issued_at_utc
    access_token_expires_at := incoming.access_token_expires_at
    refresh_token_expires_at := incoming.refresh_token_expires_at
    intuit_user_id := incoming.intuit_user_id
    intuit_email := incoming.intuit_email
    updated_at := now }

/-- INSERT ... ON CONFLICT (realm_id, qbo_environment) DO UPDATE semantics on
the table: update the existing row for the key, or append a new row. -/
def applyOnConflictUpsert (store : List QboTokenRecord) (incoming : QboTokenRecord)
    (now : Int) : List QboTokenRecord :=
  if store.any (fun r => sameKey r incoming.realm_id incoming.qbo_environment) then
    store.map (fun r =>
      if sameKey r incoming.realm_id incoming.qbo_environment then
        doUpdateSet r incoming now
      else r)
  else
    store ++ [incoming]

/-- `cur.execute(insertSql, params)`: psycopg2 interpolates `params` into the
`%s` placeholders client-side and raises `IndexError` when there are fewer
parameters than placeholders; with matching counts the statement runs. -/
def executeInsert (store : List QboTokenRecord) (params : List SqlValue)
    (now : Int) : Except String (List QboTokenRecord) :=
  if params.length = numPlaceholders then
    Except.ok (applyOnConflictUpsert store (recordFromParams params now) now)
  else
    Except.error "IndexError: tuple index out of range"

/-- The function `upsert_qbo_token(token, realm_id, intuit_email, intuit_user_id)`
(lines 76-125). It builds the parameter tuple (which omits `intuit_user_id`),
executes the INSERT and commits; any exception is caught, printed, and the
transaction rolled back (store unchanged), so the function always returns
normally. Result: the store after the call, and the caught error if any. -/
def upsert_qbo_token (cfg : Config) (store : List QboTokenRecord)
    (token : TokenDict) (realm_id : String)
    (intuit_email intuit_user_id : Option String)
    (issued_at now : Int) : List QboTokenRecord × Option String :=
  match executeInsert store (upsertParams cfg token realm_id intuit_email issued_at) now with
  | Except.ok store2 => (store2, none)
  | Except.error e => (store, some e)

/-- Outcome of one outbound `requests` call: either a parsed response with an
HTTP status and a JSON body, or a `requests.RequestException` (network
error / timeout). -/
inductive HttpOutcome (β : Type) where
  | response (status : Nat) (body : β)
  | netError
deriving DecidableEq, Repr

/-- The userinfo JSON body, as read by `r.json().get("email")` and
`r.json().get("sub")`. -/
structure UserinfoBody where
  email : Option String
  sub : Option String
deriving DecidableEq, Repr

/-- The HTTP response `callback` returns to the caller. -/
inductive CallbackResult where
  /-- "Missing authorization code or realmId", status 400 (line 174). -/
  | missingParams
  /-- "Access token missing in response", status 400 (line 194). -/
  | accessTokenMissing
  /-- "OAuth communication failed", status 502: a `requests.RequestException`
  was raised, including `raise_for_status` on a 4xx/5xx exchange (line 214). -/
  | oauthCommFailed
  /-- "Authentication failed", status 500: the catch-all `except Exception`
  fired (line 218). -/
  | authFailed
  /-- `redirect(url_for("peek"))`: the success redirect (line 210). -/
  | redirectPeek
deriving DecidableEq, Repr

/-- Everything observable about one `/callback` request: the HTTP result, the
token store afterwards, and which outbound calls were made. -/
structure CallbackOutcome where
  result : CallbackResult
  store : List QboTokenRecord
  exchangeCalled : Bool
  userinfoCalled : Bool
deriving DecidableEq, Repr

/-- The `/callback` route (lines 168-218). Inputs: the `code` and `realmId`
query parameters (`none` = absent), the outcome the token endpoint and the
userinfo endpoint would give if called, and the current store.

Control flow, mirroring the source:
1. `if not code or not realm_id` → 400, before any network call;
2. `requests.post` to the token endpoint; `raise_for_status()` raises
   `requests.HTTPError` (a `RequestException`) exactly for the client- and
   server-error statuses 400 ≤ status < 600 → 502; any other status passes;
3. `if not access_token` → 400;
4. `requests.get` userinfo; a `RequestException` here is caught by the same
   handler → 502. `intuit_email` is pre-initialised to `None`, but
   `intuit_user_id` is assigned only inside `if r.status_code == 200:`, so on
   any other status line 208 raises `UnboundLocalError`, caught by
   `except Exception` → 500, and the upsert is never reached;
5. `upsert_qbo_token(...)` (which itself never raises), then the success
   redirect. -/
def callback (cfg : Config) (code realmId : Option String)
    (exchange : HttpOutcome TokenDict) (userinfo : HttpOutcome UserinfoBody)
    (store : List QboTokenRecord) (issued_at now : Int) : CallbackOutcome :=
  if !(pyTruthy code) || !(pyTruthy realmId) then
    { result := CallbackResult.missingParams, store := store
      exchangeCalled := false, userinfoCalled := false }
  else
    match exchange with
    | HttpOutcome.netError =>
      { result := CallbackResult.oauthCommFailed, store := store
        exchangeCalled := true, userinfoCalled := false }
    | HttpOutcome.response st token =>
      if 400 ≤ st ∧ st ≤ 599 then
        { result := CallbackResult.oauthCommFailed, store := store
          exchangeCalled := true, userinfoCalled := false }
      else if !(pyTruthy token.access_token) then
        { result := CallbackResult.accessTokenMissing, store := store
          exchangeCalled := true, userinfoCalled := false }
      else
        match userinfo with
        | HttpOutcome.netError =>
          { result := CallbackResult.oauthCommFailed, store := store
            exchangeCalled := true, userinfoCalled := true }
        | HttpOutcome.response ust ubody =>
          if ust = 200 then
            { result := CallbackResult.redirectPeek
              store := (upsert_qbo_token cfg store token (realmId.getD "")
                ubody.email ubody.sub issued_at now).1
              exchangeCalled := true, userinfoCalled := true }
          else
            { result := CallbackResult.authFailed, store := store
              exchangeCalled := true, userinfoCalled := true }

/-- One row of the `/peek` response: the four selected columns. -/
structure PeekRow where
  realm_id : String
  intuit_email : Option String
  qbo_environment : String
  refresh_token_expires_at : Option Int
deriving DecidableEq, Repr

/-- Projection of a stored record onto the SELECTed columns. -/
def peekRow (r : QboTokenRecord) : PeekRow :=
  { realm_id := r.realm_id
    intuit_email := r.intuit_email
    qbo_environment := r.qbo_environment
    refresh_token_expires_at := r.refresh_token_expires_at }

/-- ORDER BY updated_at DESC: insert a record into a list already sorted by
descending `updated_at`, keeping it sorted. -/
def insertDesc (r : QboTokenRecord) : List QboTokenRecord → List QboTokenRecord
  | [] => [r]
  | x :: xs =>
    if x.updated_at ≤ r.updated_at then r :: x :: xs
    else x :: insertDesc r xs

/-- Sort the table by `updated_at` descending (the ORDER BY of `/peek`). -/
def sortByUpdatedDesc : List QboTokenRecord → List QboTokenRecord
  | [] => []
  | x :: xs => insertDesc x (sortByUpdatedDesc xs)

/-- The rows `SELECT ... ORDER BY updated_at DESC LIMIT 5` yields. -/
def peekSelected (store : List QboTokenRecord) : List QboTokenRecord :=
  (sortByUpdatedDesc store).take 5

/-- The `/peek` route (lines 224-232): the selected columns of the at most five
most recently updated records, most recent first. -/
def peek (store : List QboTokenRecord) : List PeekRow :=
  (peekSelected store).map peekRow

/-- The descending-`updated_at` order of the `/peek` listing. -/
def uDesc (a b : QboTokenRecord) : Prop :=
  b.updated_at ≤ a.updated_at

/-! Concrete sample values used to evaluate the model on closed inputs. -/

/-- Sample configuration: a set client id, sandbox environment. -/
def cfgEx : Config := { client_id := some "client-ex", qbo_env := "sandbox" }

/-- Sample successful token-endpoint body. -/
def tokEx : TokenDict :=
  { access_token := some "at-1", refresh_token := some "rt-1",
    token_type := some "bearer", expires_in := some 3600,
    x_refresh_token_expires_in := some 8726400 }

/-- A second token body differing from `tokEx` in `access_token`. -/
def tokEx2 : TokenDict := { tokEx with access_token := some "at-2" }

/-- A token body whose `x_refresh_token_expires_in` key is absent. -/
def tokNoRefreshExpiry : TokenDict := { tokEx with x_refresh_token_expires_in := none }

/-- Sample userinfo body. -/
def uiEx : UserinfoBody := { email := some "user-1@example.com", sub := some "sub-1" }

/-- A stored record for realm-1/sandbox with a known refresh-token expiry. -/
def recEx : QboTokenRecord :=
  { realm_id := "realm-1", intuit_user_id := some "sub-0",
    intuit_email := some "user-0@example.com", access_token := some "at-0",
    refresh_token := some "rt-0", token_type := "bearer",
    expires_in := some 3600, refresh_expires_in := some 8726400,
    issued_at_utc := 50, access_token_expires_at := some 3650,
    refresh_token_expires_at := some 8726450, qbo_environment := "sandbox",
    client_id := some "client-ex", created_at := 50, updated_at := 50 }

/-! Helper lemmas shared between the claim theorems. -/

/-- The INSERT statement has exactly thirteen `%s` placeholders. -/
theorem numPlaceholders_eq : numPlaceholders = 13 := by decide

/-- Every run of `upsert_qbo_token` hits the psycopg2 parameter-count
`IndexError`, rolls back, and returns the store unchanged together with the
caught error. -/
theorem upsert_qbo_token_run (cfg : Config) (store : List QboTokenRecord)
    (token : TokenDict) (realm : String) (email uid : Option String)
    (iat now : Int) :
    upsert_qbo_token cfg store token realm email uid iat now
      = (store, some "IndexError: tuple index out of range") := by
  simp [upsert_qbo_token, executeInsert, upsertParams, numPlaceholders_eq]

/-- Membership after a sorted insert: the new element or an old one. -/
theorem mem_insertDesc {y r : QboTokenRecord} {l : List QboTokenRecord}
    (h : y ∈ insertDesc r l) : y = r ∨ y ∈ l := by
  induction l with
  | nil => simpa [insertDesc] using h
  | cons x xs ih =>
    by_cases hc : x.updated_at ≤ r.updated_at
    · simp only [insertDesc, if_pos hc, List.mem_cons] at h
      rcases h with h | h | h
      · exact Or.inl h
      · exact Or.inr (List.mem_cons.mpr (Or.inl h))
      · exact Or.inr (List.mem_cons.mpr (Or.inr h))
    · simp only [insertDesc, if_neg hc, List.mem_cons] at h
      rcases h with h | h
      · exact Or.inr (List.mem_cons.mpr (Or.inl h))
      · rcases ih h with h | h
        · exact Or.inl h
        · exact Or.inr (List.mem_cons.mpr (Or.inr h))

/-- A sorted insert preserves the descending-`updated_at` pairwise order. -/
theorem pairwise_insertDesc {r : QboTokenRecord} {l : List QboTokenRecord}
    (h : List.Pairwise uDesc l) : List.Pairwise uDesc (insertDesc r l) := by
  induction l with
  | nil => simp [insertDesc, uDesc]
  | cons x xs ih =>
    rcases List.pairwise_cons.mp h with ⟨hx, hxs⟩
    by_cases hc : x.updated_at ≤ r.updated_at
    · simp only [insertDesc, if_pos hc]
      refine List.pairwise_cons.mpr ⟨?_, h⟩
      intro y hy
      rcases List.mem_cons.mp hy with rfl | hy
      · exact hc
      · exact le_trans (hx y hy) hc
    · simp only [insertDesc, if_neg hc]
      refine List.pairwise_cons.mpr ⟨?_, ih hxs⟩
      intro y hy
      rcases mem_insertDesc hy with rfl | hy
      · exact le_of_not_le hc
      · exact hx y hy

/-- The full sort is pairwise descending in `updated_at`. -/
theorem pairwise_sortByUpdatedDesc (l : List QboTokenRecord) :
    List.Pairwise uDesc (sortByUpdatedDesc l) := by
  induction l with
  | nil => simp [sortByUpdatedDesc]
  | cons x xs ih => exact pairwise_insertDesc ih

/-! Claim theorems. -/

/-- C1: every call to `upsert_qbo_token` builds a 12-value parameter tuple for
the 13 `%s` placeholders of the INSERT statement — the value for the
`intuit_user_id` column is omitted and `intuit_email` sits in its position
(index 1) — so the database execute raises, the transaction is rolled back
leaving the token store unchanged, and the function still returns normally,
with the exception caught rather than propagated. -/
theorem c1_upsert_param_tuple_mismatch (cfg : Config) (store : List QboTokenRecord)
    (token : TokenDict) (realm : String) (email uid : Option String)
    (iat now : Int) :
    (upsertParams cfg token realm email iat).length = 12 ∧
    numPlaceholders = 13 ∧
    (upsertParams cfg token realm email iat).getD 1 SqlValue.null = optTextVal email ∧
    (upsert_qbo_token cfg store token realm email uid iat now).1 = store ∧
    (upsert_qbo_token cfg store token realm email uid iat now).2
      = some "IndexError: tuple index out of range" := by
  refine ⟨rfl, numPlaceholders_eq, rfl, ?_, ?_⟩ <;>
    simp [upsert_qbo_token_run]

/-- C2 (code bug): a callback whose token exchange succeeds (HTTP 200 with an
access token) but whose userinfo lookup returns a non-200 status aborts with
"Authentication failed" (HTTP 500) — the `UnboundLocalError` on
`intuit_user_id` — and persists nothing, instead of completing the flow with a
record whose identity fields are null as the spec requires. -/
theorem c2_userinfo_failure_aborts_flow :
    callback cfgEx (some "auth-code") (some "realm-1")
        (HttpOutcome.response 200 tokEx) (HttpOutcome.response 401 uiEx) [] 100 101
      = { result := CallbackResult.authFailed, store := [],
          exchangeCalled := true, userinfoCalled := true } := rfl

/-- C3 (counterexample): a concrete callback whose token exchange succeeds and
whose persistence fails (the store, empty before, is still empty after: the
upsert rolled back) is nevertheless reported as success — the caller IS
redirected to the success page, refuting the claim that a persistence failure
is reported to the caller as an error. -/
theorem c3_counterexample_success_despite_failed_persist :
    (callback cfgEx (some "auth-code") (some "realm-1")
        (HttpOutcome.response 200 tokEx) (HttpOutcome.response 200 uiEx) [] 100 101).result
      = CallbackResult.redirectPeek ∧
    (callback cfgEx (some "auth-code") (some "realm-1")
        (HttpOutcome.response 200 tokEx) (HttpOutcome.response 200 uiEx) [] 100 101).store
      = [] := ⟨rfl, rfl⟩

/-- C3 (amended): on every callback that reaches persistence (truthy `code`
and `realmId`, exchange HTTP 200 with a truthy access token, userinfo HTTP
200), the upsert fails and is swallowed inside `upsert_qbo_token` — the store
is unchanged and the error is only caught and printed — yet the caller is
redirected to the success page: the persistence failure is NOT reported to the
caller. -/
theorem c3_amended_persistence_failure_swallowed (cfg : Config)
    (code realm : Option String) (token : TokenDict) (ubody : UserinfoBody)
    (store : List QboTokenRecord) (iat now : Int)
    (hcode : pyTruthy code = true) (hrealm : pyTruthy realm = true)
    (htok : pyTruthy token.access_token = true) :
    (callback cfg code realm (HttpOutcome.response 200 token)
        (HttpOutcome.response 200 ubody) store iat now).result
      = CallbackResult.redirectPeek ∧
    (callback cfg code realm (HttpOutcome.response 200 token)
        (HttpOutcome.response 200 ubody) store iat now).store = store ∧
    (upsert_qbo_token cfg store token (realm.getD "") ubody.email ubody.sub iat now).2
      ≠ none := by
  refine ⟨?_, ?_, ?_⟩ <;>
    simp [callback, hcode, hrealm, htok, upsert_qbo_token_run]

/-- C3 (witness for the amended theorem): the hypotheses hold and the
conclusion is obtained from the theorem at a concrete input. -/
theorem c3_amended_witness :
    (pyTruthy (some "auth-code") = true ∧ pyTruthy (some "realm-1") = true ∧
      pyTruthy tokEx.access_token = true) ∧
    ((callback cfgEx (some "auth-code") (some "realm-1")
        (HttpOutcome.response 200 tokEx) (HttpOutcome.response 200 uiEx) [recEx] 100 101).result
      = CallbackResult.redirectPeek ∧
    (callback cfgEx (some "auth-code") (some "realm-1")
        (HttpOutcome.response 200 tokEx) (HttpOutcome.response 200 uiEx) [recEx] 100 101).store
      = [recEx] ∧
    (upsert_qbo_token cfgEx [recEx] tokEx "realm-1" uiEx.email uiEx.sub 100 101).2
      ≠ none) :=
  ⟨⟨rfl, rfl, rfl⟩,
    c3_amended_persistence_failure_swallowed cfgEx (some "auth-code") (some "realm-1")
      tokEx uiEx [recEx] 100 101 rfl rfl rfl⟩

/-- C4 (code bug): two successive upserts for the same `(realm_id,
environment)` key with different access tokens leave the store empty — both
INSERTs die on the parameter-count mismatch and are rolled back — instead of
leaving exactly one record carrying the second access token. -/
theorem c4_double_upsert_writes_nothing :
    (upsert_qbo_token cfgEx
        (upsert_qbo_token cfgEx [] tokEx "realm-1" none none 100 100).1
        tokEx2 "realm-1" none none 200 200).1 = [] := rfl

/-- C5: an upsert whose token response has no `x_refresh_token_expires_in`
key, applied over a store that already holds a record for the same key with a
known refresh-token expiry, leaves the store — and in particular that stored
`refresh_token_expires_at` — exactly as it was (here because the failed INSERT
is rolled back, so no column of the prior record is touched). -/
theorem c5_missing_refresh_expiry_preserved (cfg : Config)
    (store : List QboTokenRecord) (token : TokenDict) (realm : String)
    (email uid : Option String) (iat now : Int) (r : QboTokenRecord)
    (hmem : r ∈ store) (hkey : r.realm_id = realm)
    (hknown : r.refresh_token_expires_at ≠ none)
    (hmiss : token.x_refresh_token_expires_in = none) :
    (upsert_qbo_token cfg store token realm email uid iat now).1 = store ∧
    r ∈ (upsert_qbo_token cfg store token realm email uid iat now).1 := by
  rw [upsert_qbo_token_run]
  exact ⟨rfl, hmem⟩

/-- C5 (witness): the hypotheses hold at a concrete store and token and the
conclusion is obtained from the theorem there. -/
theorem c5_witness :
    (recEx ∈ [recEx] ∧ recEx.realm_id = "realm-1" ∧
      recEx.refresh_token_expires_at ≠ none ∧
      tokNoRefreshExpiry.x_refresh_token_expires_in = none) ∧
    ((upsert_qbo_token cfgEx [recEx] tokNoRefreshExpiry "realm-1" none none 100 101).1
        = [recEx] ∧
      recEx ∈ (upsert_qbo_token cfgEx [recEx] tokNoRefreshExpiry "realm-1" none none 100 101).1) :=
  ⟨⟨List.Mem.head _, rfl, by decide, rfl⟩,
    c5_missing_refresh_expiry_preserved cfgEx [recEx] tokNoRefreshExpiry "realm-1"
      none none 100 101 recEx (List.Mem.head _) rfl (by decide) rfl⟩

/-- C6 (counterexample): `raise_for_status` only raises for status ≥ 400, so a
token exchange answering a non-200 success status (here 203) with a body that
does carry an access token is NOT treated as a token-exchange error: the flow
proceeds to the success redirect, refuting the claim for this status. -/
theorem c6_counterexample_status_203_success :
    (callback cfgEx (some "auth-code") (some "realm-1")
        (HttpOutcome.response 203 tokEx) (HttpOutcome.response 200 uiEx) [] 100 101).result
      = CallbackResult.redirectPeek := rfl

/-- C6 (amended): on every callback with truthy `code`/`realmId` whose token
exchange returns a status in 400..599 (exactly the statuses
`raise_for_status` raises for) or a body without a truthy `access_token`, the
flow fails — with the 502 communication error or the 400 missing-token error
respectively — the userinfo endpoint is never called and nothing is written
to the store. -/
theorem c6_amended_exchange_failure_writes_nothing (cfg : Config)
    (code realm : Option String) (st : Nat) (token : TokenDict)
    (userinfo : HttpOutcome UserinfoBody) (store : List QboTokenRecord)
    (iat now : Int)
    (hcode : pyTruthy code = true) (hrealm : pyTruthy realm = true)
    (h : (400 ≤ st ∧ st ≤ 599) ∨ pyTruthy token.access_token = false) :
    ((callback cfg code realm (HttpOutcome.response st token) userinfo store iat now).result
        = CallbackResult.oauthCommFailed ∨
      (callback cfg code realm (HttpOutcome.response st token) userinfo store iat now).result
        = CallbackResult.accessTokenMissing) ∧
    (callback cfg code realm (HttpOutcome.response st token) userinfo store iat now).store
      = store ∧
    (callback cfg code realm (HttpOutcome.response st token) userinfo store iat now).userinfoCalled
      = false := by
  rcases h with ⟨h1, h2⟩ | h
  · simp [callback, hcode, hrealm, h1, h2]
  · by_cases h4 : 400 ≤ st ∧ st ≤ 599 <;> simp [callback, hcode, hrealm, h, h4]

/-- C6 (witness for the amended theorem): a 401 exchange at a concrete input. -/
theorem c6_amended_witness :
    (pyTruthy (some "auth-code") = true ∧ pyTruthy (some "realm-1") = true ∧
      ((400 ≤ 401 ∧ 401 ≤ 599) ∨ pyTruthy tokEx.access_token = false)) ∧
    (((callback cfgEx (some "auth-code") (some "realm-1")
        (HttpOutcome.response 401 tokEx) (HttpOutcome.response 200 uiEx) [recEx] 100 101).result
        = CallbackResult.oauthCommFailed ∨
      (callback cfgEx (some "auth-code") (some "realm-1")
        (HttpOutcome.response 401 tokEx) (HttpOutcome.response 200 uiEx) [recEx] 100 101).result
        = CallbackResult.accessTokenMissing) ∧
    (callback cfgEx (some "auth-code") (some "realm-1")
        (HttpOutcome.response 401 tokEx) (HttpOutcome.response 200 uiEx) [recEx] 100 101).store
      = [recEx] ∧
    (callback cfgEx (some "auth-code") (some "realm-1")
        (HttpOutcome.response 401 tokEx) (HttpOutcome.response 200 uiEx) [recEx] 100 101).userinfoCalled
      = false) :=
  ⟨⟨rfl, rfl, Or.inl (by decide)⟩,
    c6_amended_exchange_failure_writes_nothing cfgEx (some "auth-code") (some "realm-1")
      401 tokEx (HttpOutcome.response 200 uiEx) [recEx] 100 101 rfl rfl
      (Or.inl (by decide))⟩

/-- C7: a callback missing (or empty) `code` or `realmId` returns the
"Missing authorization code or realmId" 400 error with no outbound HTTP call
— neither the token exchange nor the userinfo lookup runs — and no store
write. -/
theorem c7_missing_params_no_network_no_write (cfg : Config)
    (code realm : Option String) (exchange : HttpOutcome TokenDict)
    (userinfo : HttpOutcome UserinfoBody) (store : List QboTokenRecord)
    (iat now : Int)
    (h : pyTruthy code = false ∨ pyTruthy realm = false) :
    callback cfg code realm exchange userinfo store iat now
      = { result := CallbackResult.missingParams, store := store,
          exchangeCalled := false, userinfoCalled := false } := by
  rcases h with h | h <;> simp [callback, h]

/-- C7 (witness): a callback with no `code` parameter at a concrete input. -/
theorem c7_witness :
    (pyTruthy (none : Option String) = false ∨ pyTruthy (some "realm-1") = false) ∧
    callback cfgEx none (some "realm-1")
        (HttpOutcome.response 200 tokEx) (HttpOutcome.response 200 uiEx) [recEx] 100 101
      = { result := CallbackResult.missingParams, store := [recEx],
          exchangeCalled := false, userinfoCalled := false } :=
  ⟨Or.inl rfl,
    c7_missing_params_no_network_no_write cfgEx none (some "realm-1")
      (HttpOutcome.response 200 tokEx) (HttpOutcome.response 200 uiEx) [recEx] 100 101
      (Or.inl rfl)⟩

/-- C8: when the token response carries `expires_in = 3600`, the access-token
expiry the upsert derives and binds for the `access_token_expires_at` column
(parameter index 8) is exactly `issued_at + 3600`. -/
theorem c8_access_expiry_is_issued_plus_3600 (cfg : Config) (token : TokenDict)
    (realm : String) (email : Option String) (iat : Int)
    (h : token.expires_in = some 3600) :
    deriveExpiry iat token.expires_in = some (iat + 3600) ∧
    (upsertParams cfg token realm email iat).getD 8 SqlValue.null
      = SqlValue.num (iat + 3600) := by
  constructor
  · simp [deriveExpiry, h]
  · simp [upsertParams, deriveExpiry, h, optNumVal]

/-- C8 (witness): the derivation at `tokEx` (`expires_in = 3600`) and
`issued_at = 100`. -/
theorem c8_witness :
    tokEx.expires_in = some 3600 ∧
    (deriveExpiry 100 tokEx.expires_in = some (100 + 3600) ∧
      (upsertParams cfgEx tokEx "realm-1" none 100).getD 8 SqlValue.null
        = SqlValue.num (100 + 3600)) :=
  ⟨rfl, c8_access_expiry_is_issued_plus_3600 cfgEx tokEx "realm-1" none 100 rfl⟩

/-- C9 (counterexample): a present `expires_in` of `0` is falsy in Python, so
the derived expiry is `None`, not `issued_at + 0`: the claim's "when the
relative value is present, the absolute expiry equals issued_at plus that
value" fails at 0. -/
theorem c9_counterexample_zero_expires_in :
    deriveExpiry 1000 (some 0) = none ∧
    deriveExpiry 1000 (some 0) ≠ some (1000 + 0) :=
  ⟨rfl, by decide⟩

/-- C9 (amended): a missing relative lifetime derives a null expiry (unknown,
not immediate), a present nonzero value derives `issued_at + value`, and a
present value of `0` is treated like a missing one (Python truthiness) and
also derives null. -/
theorem c9_amended_expiry_derivation (iat n : Int) (h : n ≠ 0) :
    deriveExpiry iat none = none ∧
    deriveExpiry iat (some n) = some (iat + n) ∧
    deriveExpiry iat (some 0) = none := by
  refine ⟨rfl, ?_, rfl⟩
  simp [deriveExpiry, h]

/-- C9 (witness for the amended theorem): at `issued_at = 100`, `n = 3600`. -/
theorem c9_amended_witness :
    (3600 : Int) ≠ 0 ∧
    (deriveExpiry 100 none = none ∧
      deriveExpiry 100 (some 3600) = some (100 + 3600) ∧
      deriveExpiry 100 (some 0) = none) :=
  ⟨by decide, c9_amended_expiry_derivation 100 3600 (by decide)⟩

/-- C10: for every store, `/peek` returns at most 5 row summaries, and they
are the projections of the selected records taken in descending `updated_at`
order (most recently updated first). -/
theorem c10_peek_limit_five_desc_order (store : List QboTokenRecord) :
    (peek store).length ≤ 5 ∧
    peek store = (peekSelected store).map peekRow ∧
    List.Pairwise uDesc (peekSelected store) := by
  refine ⟨?_, rfl, ?_⟩
  · simp only [peek, peekSelected, List.length_map, List.length_take]
    exact min_le_left _ _
  · exact List.Pairwise.sublist (List.take_sublist _ _)
      (pairwise_sortByUpdatedDesc store)

end QboApp
